import Mathlib

/-!
Verification of the pipeline orchestration engine of the AI_video_edit
repository (src/orchestration/state_schema.py, src/orchestration/nodes.py,
src/orchestration/graph_builder.py).

The Python code threads a mutable `PipelineState` dictionary through a
LangGraph state machine.  We embed the state as a Lean structure, each graph
node as a pure state transformer, and each agent invocation as an
`Except String AgentResult` value: `Except.ok r` models the agent returning
the result dictionary `r`, `Except.error e` models the agent call raising an
exception with message `e`.  Totality of the node functions mirrors the
Python `try/except` boundary: a node always returns a state, never re-raises.

Monetary cost and wall-clock time are Python floats in the source; no claim
depends on fractional rounding, so they are embedded as rationals.  Opaque
payload dictionaries and lists (frames, cursor events, descriptions, ...) are
embedded as lists over `Nat` or association lists: only their emptiness or
identity is ever inspected by the orchestration core.
-/

/-- Opaque dictionary payload (config maps, metadata maps, edit plans). Only
Python truthiness (emptiness) of these values is inspected by the core. -/
abbrev Meta := List (String × String)

/-- The `api_usage` sub-dictionary read by `update_state_with_agent_result`. -/
structure ApiUsage where
  total_tokens : Nat := 0
  estimated_cost_usd : Rat := 0
deriving Repr, DecidableEq

/-- The audio transcript dictionary; `parallel_join_node` inspects its
`segments` key and substitutes the default with `duration = 0`. -/
structure Transcript where
  segments : List Nat := []
  duration : Rat := 0
deriving Repr, DecidableEq

/-- The `tts_config` sub-dictionary; the merge reads its cost key. -/
structure TtsConfig where
  estimated_cost_usd : Rat := 0
deriving Repr, DecidableEq

/-- Result dictionary returned by an agent `execute` call, with one optional
field per key that `update_state_with_agent_result` reads via `.get`.
A `none` field models an absent key. -/
structure AgentResult where
  status : String := "success"
  error : Option String := none
  frames : Option (List Nat) := none
  metadata : Option Meta := none
  cursor_events : Option (List Nat) := none
  trajectory : Option Meta := none
  descriptions : Option (List Nat) := none
  api_usage : Option ApiUsage := none
  transcript : Option Transcript := none
  silence_segments : Option (List Nat) := none
  audio_analysis : Option Meta := none
  event_timeline : Option (List Nat) := none
  insights : Option Meta := none
  narration_script : Option Meta := none
  edit_plan : Option Meta := none
  tts_config : Option TtsConfig := none
  video_path : Option String := none
  execution_time : Option Rat := none
deriving Repr, DecidableEq

/-- PipelineState from src/orchestration/state_schema.py, one field per
TypedDict key.  Optional slots are `Option` values; `none` models Python
`None` (and an absent key, which `.get` treats the same way). -/
structure PipelineState where
  project_id : String
  video_path : String
  output_dir : String
  status : String
  current_stage : String
  config : Meta
  user_preferences : Meta
  video_metadata : Meta
  frames : Option (List Nat)
  frames_metadata : Option Meta
  cursor_events : Option (List Nat)
  cursor_trajectory : Option Meta
  cursor_metadata : Option Meta
  frame_descriptions : Option (List Nat)
  vision_metadata : Option ApiUsage
  audio_transcript : Option Transcript
  silence_segments : Option (List Nat)
  audio_analysis : Option Meta
  audio_metadata : Option ApiUsage
  event_timeline : Option (List Nat)
  insights : Option Meta
  analysis_metadata : Option ApiUsage
  narration_script : Option Meta
  edit_plan : Option Meta
  tts_config : Option TtsConfig
  script_metadata : Option ApiUsage
  final_video_path : Option String
  render_metadata : Option Meta
  processing_time : Rat
  errors : List String
  warnings : List String
  completed_stages : List String
  total_tokens_used : Nat
  total_cost_usd : Rat
deriving Repr, DecidableEq

/-- create_initial_state from src/orchestration/state_schema.py.  The Python
signature takes optional `config`/`user_preferences` and replaces `None`
with `{}` (`config or {}`). -/
def create_initial_state (project_id video_path : String)
    (config user_preferences : Option Meta) : PipelineState where
  project_id := project_id
  video_path := video_path
  output_dir := "projects/" ++ project_id ++ "/output"
  status := "processing"
  current_stage := "initialized"
  config := config.getD []
  user_preferences := user_preferences.getD []
  video_metadata := []
  frames := none
  frames_metadata := none
  cursor_events := none
  cursor_trajectory := none
  cursor_metadata := none
  frame_descriptions := none
  vision_metadata := none
  audio_transcript := none
  silence_segments := none
  audio_analysis := none
  audio_metadata := none
  event_timeline := none
  insights := none
  analysis_metadata := none
  narration_script := none
  edit_plan := none
  tts_config := none
  script_metadata := none
  final_video_path := none
  render_metadata := none
  processing_time := 0
  errors := []
  warnings := []
  completed_stages := []
  total_tokens_used := 0
  total_cost_usd := 0

/-- update_state_with_agent_result from src/orchestration/state_schema.py,
translated branch by branch.  On a failed result it appends one formatted
error string and sets `status = "error"`, returning early; on any other
status it records the stage as completed, writes the agent-specific slots,
accumulates token/cost telemetry, and adds the execution time. -/
def update_state_with_agent_result (state : PipelineState)
    (agent_name : String) (result : AgentResult) : PipelineState :=
  if result.status = "failed" then
    { state with
      errors := state.errors ++ [agent_name ++ ": " ++ result.error.getD "Unknown error"],
      status := "error" }
  else
    let state := { state with
      completed_stages := state.completed_stages ++ [agent_name],
      current_stage := agent_name }
    let state :=
      if agent_name = "frame_extractor" then
        { state with
          frames := result.frames,
          frames_metadata := result.metadata,
          video_metadata := result.metadata.getD [] }
      else if agent_name = "cursor_detector" then
        { state with
          cursor_events := result.cursor_events,
          cursor_trajectory := result.trajectory,
          cursor_metadata := result.metadata }
      else if agent_name = "vision_description" then
        { state with
          frame_descriptions := result.descriptions,
          vision_metadata := result.api_usage,
          total_tokens_used := state.total_tokens_used +
            (result.api_usage.map ApiUsage.total_tokens).getD 0,
          total_cost_usd := state.total_cost_usd +
            (result.api_usage.map ApiUsage.estimated_cost_usd).getD 0 }
      else if agent_name = "audio_agent" then
        { state with
          audio_transcript := result.transcript,
          silence_segments := result.silence_segments,
          audio_analysis := result.audio_analysis,
          audio_metadata := result.api_usage,
          total_cost_usd := state.total_cost_usd +
            (result.api_usage.map ApiUsage.estimated_cost_usd).getD 0 }
      else if agent_name = "analysis_agent" then
        { state with
          event_timeline := result.event_timeline,
          insights := result.insights,
          analysis_metadata := result.api_usage,
          total_tokens_used := state.total_tokens_used +
            (result.api_usage.map ApiUsage.total_tokens).getD 0,
          total_cost_usd := state.total_cost_usd +
            (result.api_usage.map ApiUsage.estimated_cost_usd).getD 0 }
      else if agent_name = "script_planner" then
        { state with
          narration_script := result.narration_script,
          edit_plan := result.edit_plan,
          tts_config := result.tts_config,
          script_metadata := result.api_usage,
          total_tokens_used := state.total_tokens_used +
            (result.api_usage.map ApiUsage.total_tokens).getD 0,
          total_cost_usd := state.total_cost_usd +
            (result.api_usage.map ApiUsage.estimated_cost_usd).getD 0 +
            (result.tts_config.map TtsConfig.estimated_cost_usd).getD 0 }
      else if agent_name = "render" then
        { state with
          final_video_path := result.video_path,
          render_metadata := result.metadata,
          status := "complete" }
      else state
    { state with processing_time := state.processing_time + result.execution_time.getD 0 }

/-- Python truthiness of an optional list/dict value: falsy when the value is
`None` or empty (used by `not state.get(key)` checks in the routers). -/
def truthy {α : Type} (o : Option (List α)) : Bool :=
  match o with
  | none => false
  | some l => !l.isEmpty

/-- Check from parallel_join_node in src/orchestration/nodes.py:
`state.get('cursor_events') is not None and len(state.get('cursor_events', [])) > 0`. -/
def has_cursor_data (s : PipelineState) : Bool :=
  match s.cursor_events with
  | none => false
  | some l => decide (0 < l.length)

/-- Check from parallel_join_node:
`state.get('audio_transcript') is not None and state.get('audio_transcript', {}).get('segments')`. -/
def has_audio_data (s : PipelineState) : Bool :=
  match s.audio_transcript with
  | none => false
  | some t => !t.segments.isEmpty

/-- Check from parallel_join_node:
`state.get('frames') is not None and len(state.get('frames', [])) > 0`. -/
def has_frames_data (s : PipelineState) : Bool :=
  match s.frames with
  | none => false
  | some l => decide (0 < l.length)

/-- intake_node from src/orchestration/nodes.py: performs only external
logging/database side effects and returns the state unchanged.  It never
appends "intake" to completed_stages. -/
def intake_node (s : PipelineState) : PipelineState := s

/-- parallel_fork_node from src/orchestration/nodes.py. -/
def parallel_fork_node (s : PipelineState) : PipelineState :=
  { s with current_stage := "parallel_processing" }

/-- parallel_join_node from src/orchestration/nodes.py: validates the
parallel branch results, fails the run when the frames slot is empty, and
substitutes empty defaults for missing cursor/audio data. -/
def parallel_join_node (s : PipelineState) : PipelineState :=
  let has_cursor := has_cursor_data s
  let has_audio := has_audio_data s
  let has_frames := has_frames_data s
  if !has_frames then
    { s with
      errors := s.errors ++ ["Frame extraction failed - no frames to analyze"],
      status := "error" }
  else
    let s :=
      if !has_cursor then
        { s with
          warnings := s.warnings ++ ["Cursor detection produced no results"],
          cursor_events := some [] }
      else s
    let s :=
      if !has_audio then
        { s with
          warnings := s.warnings ++ ["Audio processing produced no results"],
          audio_transcript := some { segments := [], duration := 0 },
          silence_segments := some [] }
      else s
    { s with current_stage := "parallel_complete" }

/-- frame_extractor_node from src/orchestration/nodes.py.  `invoke` models
the agent call inside the `try` block: a raised fault is caught and converted
into an appended error string plus `status = "error"` (frame extraction is
critical). -/
def frame_extractor_node (invoke : Except String AgentResult)
    (s : PipelineState) : PipelineState :=
  match invoke with
  | Except.ok result => update_state_with_agent_result s "frame_extractor" result
  | Except.error e =>
      { s with errors := s.errors ++ ["frame_extractor: " ++ e], status := "error" }

/-- cursor_detector_node from src/orchestration/nodes.py.  A raised fault is
caught, an error string is appended, and a warning is appended instead of
failing the pipeline (the except branch does not touch `status`). -/
def cursor_detector_node (invoke : Except String AgentResult)
    (s : PipelineState) : PipelineState :=
  match invoke with
  | Except.ok result => update_state_with_agent_result s "cursor_detector" result
  | Except.error e =>
      { s with
        errors := s.errors ++ ["cursor_detector: " ++ e],
        warnings := s.warnings ++ ["Cursor detection failed, continuing without cursor data"] }

/-- audio_agent_node from src/orchestration/nodes.py; its except branch
mirrors the cursor node (error + warning, `status` untouched). -/
def audio_agent_node (invoke : Except String AgentResult)
    (s : PipelineState) : PipelineState :=
  match invoke with
  | Except.ok result => update_state_with_agent_result s "audio_agent" result
  | Except.error e =>
      { s with
        errors := s.errors ++ ["audio_agent: " ++ e],
        warnings := s.warnings ++ ["Audio processing failed, continuing without audio data"] }

/-- vision_description_node from src/orchestration/nodes.py (critical: a
raised fault sets `status = "error"`). -/
def vision_description_node (invoke : Except String AgentResult)
    (s : PipelineState) : PipelineState :=
  match invoke with
  | Except.ok result => update_state_with_agent_result s "vision_description" result
  | Except.error e =>
      { s with errors := s.errors ++ ["vision_description: " ++ e], status := "error" }

/-- analysis_agent_node from src/orchestration/nodes.py (critical). -/
def analysis_agent_node (invoke : Except String AgentResult)
    (s : PipelineState) : PipelineState :=
  match invoke with
  | Except.ok result => update_state_with_agent_result s "analysis_agent" result
  | Except.error e =>
      { s with errors := s.errors ++ ["analysis_agent: " ++ e], status := "error" }

/-- script_planner_node from src/orchestration/nodes.py (critical). -/
def script_planner_node (invoke : Except String AgentResult)
    (s : PipelineState) : PipelineState :=
  match invoke with
  | Except.ok result => update_state_with_agent_result s "script_planner" result
  | Except.error e =>
      { s with errors := s.errors ++ ["script_planner: " ++ e], status := "error" }

/-- render_node from src/orchestration/nodes.py (critical). -/
def render_node (invoke : Except String AgentResult)
    (s : PipelineState) : PipelineState :=
  match invoke with
  | Except.ok result => update_state_with_agent_result s "render" result
  | Except.error e =>
      { s with errors := s.errors ++ ["render: " ++ e], status := "error" }

/-- output_node from src/orchestration/nodes.py: final logging/database side
effects only; the state (including `status`) is returned unchanged. -/
def output_node (s : PipelineState) : PipelineState := s

/-- should_continue_after_parallel, the second (active) definition at
src/orchestration/graph_builder.py:161.  Python binds a module-level name to
its last definition, so the compiled graph uses this non-mutating version,
not the earlier one at line 10.  The returned pair makes the absence of
state writes explicit: the second component is the state as the predicate
leaves it. -/
def should_continue_after_parallel (s : PipelineState) : String × PipelineState :=
  if s.status = "error" then ("output", s)
  else if !truthy s.frames then ("output", s)
  else ("vision_description", s)

/-- should_continue_after_vision, the second (active) definition at
src/orchestration/graph_builder.py:178. -/
def should_continue_after_vision (s : PipelineState) : String × PipelineState :=
  if s.status = "error" then ("output", s)
  else if !truthy s.frame_descriptions then ("output", s)
  else ("analysis_agent", s)

/-- should_render, the second (active) definition at
src/orchestration/graph_builder.py:190.  Unlike the shadowed variant it does
not append the "Edit plan missing, skipping render" warning. -/
def should_render (s : PipelineState) : String × PipelineState :=
  if s.status = "error" then ("output", s)
  else if !truthy s.edit_plan then ("output", s)
  else ("render", s)

/-- The earlier, shadowed definition of should_continue_after_parallel at
src/orchestration/graph_builder.py:10, which mutates `errors` and `status`
inside the routing predicate.  It is dead code at runtime (the later
definition rebinds the name before the graph is built) and is embedded only
to document the divergence. -/
def should_continue_after_parallel_legacy (s : PipelineState) : String × PipelineState :=
  if s.status = "error" then ("output", s)
  else if !truthy s.frames then
    ("output", { s with errors := s.errors ++ ["Frame extraction failed"], status := "error" })
  else ("vision_description", s)

/-- The earlier, shadowed definition of should_continue_after_vision at
src/orchestration/graph_builder.py:28 (mutating; dead code at runtime). -/
def should_continue_after_vision_legacy (s : PipelineState) : String × PipelineState :=
  if s.status = "error" then ("output", s)
  else if !truthy s.frame_descriptions then
    ("output", { s with errors := s.errors ++ ["Vision analysis failed"], status := "error" })
  else ("analysis_agent", s)

/-- The earlier, shadowed definition of should_render at
src/orchestration/graph_builder.py:46 (mutating; dead code at runtime). -/
def should_render_legacy (s : PipelineState) : String × PipelineState :=
  if s.status = "error" then ("output", s)
  else if !truthy s.edit_plan then
    ("output", { s with warnings := s.warnings ++ ["Edit plan missing, skipping render"] })
  else ("render", s)

/-- One agent invocation behaviour per stage node of the graph:
`Except.ok r` for an agent call returning `r`, `Except.error e` for an agent
call raising a fault with message `e`. -/
structure AgentBehaviors where
  frame : Except String AgentResult
  cursor : Except String AgentResult
  audio : Except String AgentResult
  vision : Except String AgentResult
  analysis : Except String AgentResult
  scriptp : Except String AgentResult
  render : Except String AgentResult

/-- The parallel region of the graph: parallel_fork → {cursor_detector,
audio_agent} → parallel_join.  The execution/merge order of the two branches
is modelled from the spec's determinism requirement (fixed order: cursor
branch before audio branch); the graph library running the branches is an
external collaborator. -/
def pipeline_parallel_section (b : AgentBehaviors) (s : PipelineState) : PipelineState :=
  parallel_join_node
    (audio_agent_node b.audio
      (cursor_detector_node b.cursor
        (parallel_fork_node s)))

/-- The part of the graph after the join: the conditional edge to
vision_description, the conditional edge to analysis_agent, the
unconditional edge analysis_agent → script_planner, the conditional edge to
render, and the unconditional edges into output. -/
def pipeline_after_join (b : AgentBehaviors) (s : PipelineState) : PipelineState :=
  if (should_continue_after_parallel s).1 = "vision_description" then
    let s := vision_description_node b.vision s
    if (should_continue_after_vision s).1 = "analysis_agent" then
      let s := analysis_agent_node b.analysis s
      let s := script_planner_node b.scriptp s
      if (should_render s).1 = "render" then
        output_node (render_node b.render s)
      else
        output_node s
    else
      output_node s
  else
    output_node s

/-- One run of the compiled graph from build_pipeline_graph in
src/orchestration/graph_builder.py, following its declared edges:
intake → frame_extractor → parallel_fork → {cursor_detector, audio_agent} →
parallel_join → (conditional) vision_description → (conditional)
analysis_agent → script_planner → (conditional) render → output.
The edges frame_extractor → parallel_fork and analysis_agent →
script_planner are unconditional in the source.  The conditional edges use
the active (non-mutating) routing predicates, as Python name shadowing
dictates. -/
def run_pipeline (b : AgentBehaviors) (s0 : PipelineState) : PipelineState :=
  pipeline_after_join b
    (pipeline_parallel_section b
      (frame_extractor_node b.frame (intake_node s0)))

/-- execute_pipeline from src/orchestration/graph_builder.py.  `sched_fault`
models an unhandled exception raised by `app.invoke` (the scheduling run
itself): the driver catches it, appends "Pipeline execution error: ..." to
the initial state's errors, forces `status = "error"`, and returns that
state instead of re-raising. -/
def execute_pipeline (b : AgentBehaviors) (sched_fault : Option String)
    (project_id video_path : String)
    (config user_preferences : Option Meta) : PipelineState :=
  let initial_state := create_initial_state project_id video_path config user_preferences
  match sched_fault with
  | some e =>
      { initial_state with
        status := "error",
        errors := initial_state.errors ++ ["Pipeline execution error: " ++ e] }
  | none => run_pipeline b initial_state

/-! ## Helper lemmas -/

/-- The failed-result branch of the merge, as a record equation. -/
theorem update_state_failed (s : PipelineState) (n : String) (r : AgentResult)
    (h : r.status = "failed") :
    update_state_with_agent_result s n r =
      { s with
        errors := s.errors ++ [n ++ ": " ++ r.error.getD "Unknown error"],
        status := "error" } := by
  simp [update_state_with_agent_result, h]

/-- A reference state used as the concrete starting point of the example runs. -/
def initial_demo_state : PipelineState :=
  create_initial_state "proj-1" "video.mp4" none none

/-! ## Claim theorems -/

/-- C10: merging a failed StageResult changes only `errors` (one formatted
string appended) and `status` (set to error); every other field, including
completed_stages, current_stage, all output slots, processing_time,
total_tokens_used and total_cost_usd, is left unchanged, so the failed
stage's execution time and cost are not added to the aggregates. -/
theorem c10_failed_merge_touches_only_errors_and_status
    (s : PipelineState) (agent_name : String) (r : AgentResult)
    (h : r.status = "failed") :
    update_state_with_agent_result s agent_name r =
      { s with
        errors := s.errors ++ [agent_name ++ ": " ++ r.error.getD "Unknown error"],
        status := "error" } :=
  update_state_failed s agent_name r h

/-- Witness for C10 at a concrete state and result. -/
theorem c10_witness :
    update_state_with_agent_result initial_demo_state "cursor_detector"
        { status := "failed", error := some "boom" } =
      { initial_demo_state with
        errors := ["cursor_detector: boom"],
        status := "error" } := by
  have h := c10_failed_merge_touches_only_errors_and_status initial_demo_state
    "cursor_detector" { status := "failed", error := some "boom" } rfl
  simpa [initial_demo_state, create_initial_state] using h

/-- C5: the three routing predicates used by the compiled graph (the active,
later definitions in graph_builder.py, which Python name shadowing binds when
the graph is built) return a next-stage name and leave the state completely
unchanged. -/
theorem c5_routing_predicates_pure (s : PipelineState) :
    (should_continue_after_parallel s).2 = s ∧
    (should_continue_after_vision s).2 = s ∧
    (should_render s).2 = s := by
  refine ⟨?_, ?_, ?_⟩
  · unfold should_continue_after_parallel
    split_ifs <;> rfl
  · unfold should_continue_after_vision
    split_ifs <;> rfl
  · unfold should_render
    split_ifs <;> rfl

/-- C6: every stage node wrapping an agent call catches a fault raised by the
agent invocation and returns a state with an error string containing the
stage name and the fault description appended to `errors`; totality of the
node functions (they return a PipelineState for the faulting invocation)
embeds that the fault never propagates to the scheduler. -/
theorem c6_nodes_catch_agent_faults (s : PipelineState) (e : String) :
    (frame_extractor_node (Except.error e) s).errors = s.errors ++ ["frame_extractor: " ++ e] ∧
    (cursor_detector_node (Except.error e) s).errors = s.errors ++ ["cursor_detector: " ++ e] ∧
    (audio_agent_node (Except.error e) s).errors = s.errors ++ ["audio_agent: " ++ e] ∧
    (vision_description_node (Except.error e) s).errors = s.errors ++ ["vision_description: " ++ e] ∧
    (analysis_agent_node (Except.error e) s).errors = s.errors ++ ["analysis_agent: " ++ e] ∧
    (script_planner_node (Except.error e) s).errors = s.errors ++ ["script_planner: " ++ e] ∧
    (render_node (Except.error e) s).errors = s.errors ++ ["render: " ++ e] :=
  ⟨rfl, rfl, rfl, rfl, rfl, rfl, rfl⟩

/-- C7: when the scheduling run itself raises an unhandled fault, the driver
catches it, appends the fault message to the returned state's errors, and
returns a state whose status is error; the embedding of execute_pipeline as a
total function into PipelineState reflects that no raw fault reaches the
caller. -/
theorem c7_driver_catches_scheduler_fault (b : AgentBehaviors)
    (e project_id video_path : String) (config user_preferences : Option Meta) :
    (execute_pipeline b (some e) project_id video_path config user_preferences).status = "error" ∧
    (execute_pipeline b (some e) project_id video_path config user_preferences).errors =
      ["Pipeline execution error: " ++ e] :=
  ⟨rfl, rfl⟩

/-- Behaviours of a run in which cursor detection returns a failed
StageResult while every other collaborator succeeds. -/
def c1_behaviors : AgentBehaviors where
  frame := Except.ok { status := "success", frames := some [0], execution_time := some 1 }
  cursor := Except.ok { status := "failed", error := some "detector crashed" }
  audio := Except.ok { status := "success", transcript := some { segments := [0], duration := 3 } }
  vision := Except.ok { status := "success", descriptions := some [0] }
  analysis := Except.ok { status := "success", event_timeline := some [0] }
  scriptp := Except.ok { status := "success", edit_plan := some [("cuts", "x")] }
  render := Except.ok { status := "success", video_path := some "out.mp4" }

/-- C1 (code bug): when the non-critical cursor-detection stage returns a
StageResult with status=failed, the merge in update_state_with_agent_result
appends an error (not a warning) and sets the pipeline status to error, so
the run stops at the post-join router: vision description never executes.
This contradicts the stated non-critical semantics (the code's own comments
say cursor failure must not fail the pipeline); only the node's exception
path and the join's default substitution implement them. -/
theorem c1_cursor_failed_result_fails_pipeline :
    (run_pipeline c1_behaviors initial_demo_state).status = "error" ∧
    (run_pipeline c1_behaviors initial_demo_state).errors =
      ["cursor_detector: detector crashed"] ∧
    (run_pipeline c1_behaviors initial_demo_state).warnings =
      ["Cursor detection produced no results"] ∧
    "vision_description" ∉ (run_pipeline c1_behaviors initial_demo_state).completed_stages ∧
    (run_pipeline c1_behaviors initial_demo_state).frame_descriptions = none := by
  decide

/-! ## Per-node frame lemmas (which slots each node can write) -/

/-- frame_extractor_node leaves every slot owned by another stage unchanged. -/
theorem frame_extractor_node_slots (inv : Except String AgentResult) (s : PipelineState) :
    (frame_extractor_node inv s).cursor_events = s.cursor_events ∧
    (frame_extractor_node inv s).audio_transcript = s.audio_transcript ∧
    (frame_extractor_node inv s).silence_segments = s.silence_segments ∧
    (frame_extractor_node inv s).frame_descriptions = s.frame_descriptions ∧
    (frame_extractor_node inv s).event_timeline = s.event_timeline ∧
    (frame_extractor_node inv s).edit_plan = s.edit_plan ∧
    (frame_extractor_node inv s).final_video_path = s.final_video_path := by
  cases inv with
  | error e => simp [frame_extractor_node]
  | ok r =>
      by_cases h : r.status = "failed" <;>
        simp [frame_extractor_node, update_state_with_agent_result, h]

/-- cursor_detector_node leaves every slot owned by another stage unchanged. -/
theorem cursor_detector_node_slots (inv : Except String AgentResult) (s : PipelineState) :
    (cursor_detector_node inv s).frames = s.frames ∧
    (cursor_detector_node inv s).audio_transcript = s.audio_transcript ∧
    (cursor_detector_node inv s).silence_segments = s.silence_segments ∧
    (cursor_detector_node inv s).frame_descriptions = s.frame_descriptions ∧
    (cursor_detector_node inv s).event_timeline = s.event_timeline ∧
    (cursor_detector_node inv s).edit_plan = s.edit_plan ∧
    (cursor_detector_node inv s).final_video_path = s.final_video_path := by
  cases inv with
  | error e => simp [cursor_detector_node]
  | ok r =>
      by_cases h : r.status = "failed" <;>
        simp [cursor_detector_node, update_state_with_agent_result, h]

/-- audio_agent_node leaves every slot owned by another stage unchanged. -/
theorem audio_agent_node_slots (inv : Except String AgentResult) (s : PipelineState) :
    (audio_agent_node inv s).frames = s.frames ∧
    (audio_agent_node inv s).cursor_events = s.cursor_events ∧
    (audio_agent_node inv s).frame_descriptions = s.frame_descriptions ∧
    (audio_agent_node inv s).event_timeline = s.event_timeline ∧
    (audio_agent_node inv s).edit_plan = s.edit_plan ∧
    (audio_agent_node inv s).final_video_path = s.final_video_path := by
  cases inv with
  | error e => simp [audio_agent_node]
  | ok r =>
      by_cases h : r.status = "failed" <;>
        simp [audio_agent_node, update_state_with_agent_result, h]

/-- vision_description_node leaves every slot owned by another stage unchanged. -/
theorem vision_description_node_slots (inv : Except String AgentResult) (s : PipelineState) :
    (vision_description_node inv s).frames = s.frames ∧
    (vision_description_node inv s).cursor_events = s.cursor_events ∧
    (vision_description_node inv s).audio_transcript = s.audio_transcript ∧
    (vision_description_node inv s).silence_segments = s.silence_segments ∧
    (vision_description_node inv s).event_timeline = s.event_timeline ∧
    (vision_description_node inv s).edit_plan = s.edit_plan ∧
    (vision_description_node inv s).final_video_path = s.final_video_path := by
  cases inv with
  | error e => simp [vision_description_node]
  | ok r =>
      by_cases h : r.status = "failed" <;>
        simp [vision_description_node, update_state_with_agent_result, h]

/-- analysis_agent_node leaves every slot owned by another stage unchanged. -/
theorem analysis_agent_node_slots (inv : Except String AgentResult) (s : PipelineState) :
    (analysis_agent_node inv s).frames = s.frames ∧
    (analysis_agent_node inv s).cursor_events = s.cursor_events ∧
    (analysis_agent_node inv s).audio_transcript = s.audio_transcript ∧
    (analysis_agent_node inv s).silence_segments = s.silence_segments ∧
    (analysis_agent_node inv s).frame_descriptions = s.frame_descriptions ∧
    (analysis_agent_node inv s).edit_plan = s.edit_plan ∧
    (analysis_agent_node inv s).final_video_path = s.final_video_path := by
  cases inv with
  | error e => simp [analysis_agent_node]
  | ok r =>
      by_cases h : r.status = "failed" <;>
        simp [analysis_agent_node, update_state_with_agent_result, h]

/-- script_planner_node leaves every slot owned by another stage unchanged. -/
theorem script_planner_node_slots (inv : Except String AgentResult) (s : PipelineState) :
    (script_planner_node inv s).frames = s.frames ∧
    (script_planner_node inv s).cursor_events = s.cursor_events ∧
    (script_planner_node inv s).audio_transcript = s.audio_transcript ∧
    (script_planner_node inv s).silence_segments = s.silence_segments ∧
    (script_planner_node inv s).frame_descriptions = s.frame_descriptions ∧
    (script_planner_node inv s).event_timeline = s.event_timeline ∧
    (script_planner_node inv s).final_video_path = s.final_video_path := by
  cases inv with
  | error e => simp [script_planner_node]
  | ok r =>
      by_cases h : r.status = "failed" <;>
        simp [script_planner_node, update_state_with_agent_result, h]

/-- render_node leaves every slot owned by another stage unchanged. -/
theorem render_node_slots (inv : Except String AgentResult) (s : PipelineState) :
    (render_node inv s).frames = s.frames ∧
    (render_node inv s).cursor_events = s.cursor_events ∧
    (render_node inv s).audio_transcript = s.audio_transcript ∧
    (render_node inv s).silence_segments = s.silence_segments ∧
    (render_node inv s).frame_descriptions = s.frame_descriptions ∧
    (render_node inv s).event_timeline = s.event_timeline ∧
    (render_node inv s).edit_plan = s.edit_plan := by
  cases inv with
  | error e => simp [render_node]
  | ok r =>
      by_cases h : r.status = "failed" <;>
        simp [render_node, update_state_with_agent_result, h]

/-- parallel_join_node never writes the frames slot nor any slot owned by a
stage after the join. -/
theorem parallel_join_node_slots (s : PipelineState) :
    (parallel_join_node s).frames = s.frames ∧
    (parallel_join_node s).frame_descriptions = s.frame_descriptions ∧
    (parallel_join_node s).event_timeline = s.event_timeline ∧
    (parallel_join_node s).edit_plan = s.edit_plan ∧
    (parallel_join_node s).final_video_path = s.final_video_path := by
  simp only [parallel_join_node]
  split_ifs <;> simp

/-- cursor_detector_node either keeps the status or sets it to error (it
never sets any other value). -/
theorem cursor_detector_node_status (inv : Except String AgentResult) (s : PipelineState) :
    (cursor_detector_node inv s).status = s.status ∨
    (cursor_detector_node inv s).status = "error" := by
  cases inv with
  | error e => left; rfl
  | ok r =>
      by_cases h : r.status = "failed"
      · right; simp [cursor_detector_node, update_state_with_agent_result, h]
      · left; simp [cursor_detector_node, update_state_with_agent_result, h]

/-- audio_agent_node either keeps the status or sets it to error. -/
theorem audio_agent_node_status (inv : Except String AgentResult) (s : PipelineState) :
    (audio_agent_node inv s).status = s.status ∨
    (audio_agent_node inv s).status = "error" := by
  cases inv with
  | error e => left; rfl
  | ok r =>
      by_cases h : r.status = "failed"
      · right; simp [audio_agent_node, update_state_with_agent_result, h]
      · left; simp [audio_agent_node, update_state_with_agent_result, h]

/-- cursor_detector_node either leaves completed_stages alone or appends
exactly its own stage name. -/
theorem cursor_detector_node_completed (inv : Except String AgentResult) (s : PipelineState) :
    (cursor_detector_node inv s).completed_stages = s.completed_stages ∨
    (cursor_detector_node inv s).completed_stages = s.completed_stages ++ ["cursor_detector"] := by
  cases inv with
  | error e => left; rfl
  | ok r =>
      by_cases h : r.status = "failed"
      · left; simp [cursor_detector_node, update_state_with_agent_result, h]
      · right; simp [cursor_detector_node, update_state_with_agent_result, h]

/-- audio_agent_node either leaves completed_stages alone or appends exactly
its own stage name. -/
theorem audio_agent_node_completed (inv : Except String AgentResult) (s : PipelineState) :
    (audio_agent_node inv s).completed_stages = s.completed_stages ∨
    (audio_agent_node inv s).completed_stages = s.completed_stages ++ ["audio_agent"] := by
  cases inv with
  | error e => left; rfl
  | ok r =>
      by_cases h : r.status = "failed"
      · left; simp [audio_agent_node, update_state_with_agent_result, h]
      · right; simp [audio_agent_node, update_state_with_agent_result, h]

/-- A frame-extraction failure (raised fault or failed result) leaves the
state unchanged except for one appended error string and `status = "error"`. -/
theorem frame_extractor_node_failed (inv : Except String AgentResult) (s : PipelineState)
    (h : (∃ e, inv = Except.error e) ∨ ∃ r, inv = Except.ok r ∧ r.status = "failed") :
    ∃ msg, frame_extractor_node inv s =
      { s with errors := s.errors ++ [msg], status := "error" } := by
  rcases h with ⟨e, he⟩ | ⟨r, hr, hst⟩
  · exact ⟨"frame_extractor: " ++ e, by simp [frame_extractor_node, he]⟩
  · exact ⟨"frame_extractor: " ++ r.error.getD "Unknown error",
      by simp [frame_extractor_node, hr, update_state_failed s "frame_extractor" r hst]⟩

/-- The join's critical check: with an empty frames slot it records the
frame-extraction error and fails the run. -/
theorem parallel_join_node_no_frames (s : PipelineState)
    (h : has_frames_data s = false) :
    parallel_join_node s =
      { s with
        errors := s.errors ++ ["Frame extraction failed - no frames to analyze"],
        status := "error" } := by
  simp [parallel_join_node, h]

/-- An empty frames slot means the join's frames check is false. -/
theorem has_frames_data_none (s : PipelineState) (h : s.frames = none) :
    has_frames_data s = false := by
  simp [has_frames_data, h]

/-- The post-join router short-circuits to output on an error status. -/
theorem should_continue_after_parallel_error (s : PipelineState)
    (h : s.status = "error") :
    (should_continue_after_parallel s).1 = "output" := by
  simp [should_continue_after_parallel, h]

/-- The router's truthiness check on frames agrees with the join's length
check. -/
theorem truthy_eq_has_frames (s : PipelineState) :
    truthy s.frames = has_frames_data s := by
  unfold truthy has_frames_data
  cases s.frames with
  | none => rfl
  | some l => cases l <;> simp

/-- C4 (amended): for every state reaching the join: with an empty frames
slot the join records the frame-extraction error, sets status to error, and
the router sends the run to finalize; with a non-empty frames slot the join
adds no error and leaves the status alone, substitutes the empty defaults for
missing cursor/audio data (empty cursor list; transcript with empty segments
and zero duration plus empty silence segments), and — provided the status is
not already error — the router continues to vision description. -/
theorem c4_join_validation (s : PipelineState) :
    (has_frames_data s = false →
      parallel_join_node s =
        { s with
          errors := s.errors ++ ["Frame extraction failed - no frames to analyze"],
          status := "error" } ∧
      (should_continue_after_parallel (parallel_join_node s)).1 = "output") ∧
    (has_frames_data s = true →
      (parallel_join_node s).errors = s.errors ∧
      (parallel_join_node s).status = s.status ∧
      (has_cursor_data s = false →
        (parallel_join_node s).cursor_events = some [] ∧
        "Cursor detection produced no results" ∈ (parallel_join_node s).warnings) ∧
      (has_audio_data s = false →
        (parallel_join_node s).audio_transcript = some { segments := [], duration := 0 } ∧
        (parallel_join_node s).silence_segments = some [] ∧
        "Audio processing produced no results" ∈ (parallel_join_node s).warnings) ∧
      (s.status ≠ "error" →
        (should_continue_after_parallel (parallel_join_node s)).1 = "vision_description")) := by
  constructor
  · intro hf
    have hj := parallel_join_node_no_frames s hf
    exact ⟨hj, should_continue_after_parallel_error _ (by rw [hj])⟩
  · intro hf
    by_cases hc : has_cursor_data s <;> by_cases ha : has_audio_data s <;>
      refine ⟨?_, ?_, fun hcf => ?_, fun haf => ?_, fun hne => ?_⟩ <;>
        simp_all [parallel_join_node, should_continue_after_parallel,
          truthy_eq_has_frames]

/-- Behaviours of a run whose state reaches the join with a non-empty frames
slot and an empty cursor slot (cursor detection returned a failed result). -/
def c4_behaviors : AgentBehaviors where
  frame := Except.ok { status := "success", frames := some [0] }
  cursor := Except.ok { status := "failed", error := some "no cursor model" }
  audio := Except.ok { status := "success", transcript := some { segments := [0], duration := 2 } }
  vision := Except.ok { status := "success", descriptions := some [0] }
  analysis := Except.ok { status := "success", event_timeline := some [0] }
  scriptp := Except.ok { status := "success", edit_plan := some [("cuts", "x")] }
  render := Except.ok { status := "success", video_path := some "out.mp4" }

/-- The state that run actually presents to the join step. -/
def c4_prejoin_state : PipelineState :=
  audio_agent_node c4_behaviors.audio
    (cursor_detector_node c4_behaviors.cursor
      (parallel_fork_node
        (frame_extractor_node c4_behaviors.frame
          (intake_node initial_demo_state))))

/-- C4 counterexample: a reachable join state with a non-empty frames slot
and an empty cursor slot for which the join substitutes the default but the
run is routed to finalize, not to vision description (the cursor failure
already set status to error via the merge). -/
theorem c4_counterexample :
    has_frames_data c4_prejoin_state = true ∧
    has_cursor_data c4_prejoin_state = false ∧
    (parallel_join_node c4_prejoin_state).cursor_events = some [] ∧
    (should_continue_after_parallel (parallel_join_node c4_prejoin_state)).1 ≠ "vision_description" ∧
    (should_continue_after_parallel (parallel_join_node c4_prejoin_state)).1 = "output" := by
  decide

/-- A join state with frames present, audio present and cursor data absent,
status still processing. -/
def c4_witness_state : PipelineState :=
  { initial_demo_state with
    frames := some [1],
    audio_transcript := some { segments := [2], duration := 1 } }

/-- Witness for C4 at concrete states: both the empty-frames branch and the
default-substitution branch of the theorem, with hypotheses discharged. -/
theorem c4_witness :
    (parallel_join_node c4_witness_state).cursor_events = some [] ∧
    "Cursor detection produced no results" ∈ (parallel_join_node c4_witness_state).warnings ∧
    (should_continue_after_parallel (parallel_join_node c4_witness_state)).1 = "vision_description" ∧
    (should_continue_after_parallel (parallel_join_node initial_demo_state)).1 = "output" := by
  have h := (c4_join_validation c4_witness_state).2 (by decide)
  have h0 := (c4_join_validation initial_demo_state).1 (by decide)
  exact ⟨(h.2.2.1 (by decide)).1, (h.2.2.1 (by decide)).2,
    h.2.2.2.2 (by decide), h0.2⟩

/-- C8 (amended): every node leaves the slots it does not own unchanged; the
one exception forced by the counterexample is the parallel join, which may
write cursor_events, audio_transcript and silence_segments when it
substitutes the empty defaults.  The conjunction lists, node by node, the
preservation of every other stage's slot. -/
theorem c8_slot_ownership (inv : Except String AgentResult) (s : PipelineState) :
    intake_node s = s ∧
    output_node s = s ∧
    ((parallel_fork_node s).frames = s.frames ∧
     (parallel_fork_node s).cursor_events = s.cursor_events ∧
     (parallel_fork_node s).audio_transcript = s.audio_transcript ∧
     (parallel_fork_node s).silence_segments = s.silence_segments ∧
     (parallel_fork_node s).frame_descriptions = s.frame_descriptions ∧
     (parallel_fork_node s).event_timeline = s.event_timeline ∧
     (parallel_fork_node s).edit_plan = s.edit_plan ∧
     (parallel_fork_node s).final_video_path = s.final_video_path) ∧
    ((frame_extractor_node inv s).cursor_events = s.cursor_events ∧
     (frame_extractor_node inv s).audio_transcript = s.audio_transcript ∧
     (frame_extractor_node inv s).silence_segments = s.silence_segments ∧
     (frame_extractor_node inv s).frame_descriptions = s.frame_descriptions ∧
     (frame_extractor_node inv s).event_timeline = s.event_timeline ∧
     (frame_extractor_node inv s).edit_plan = s.edit_plan ∧
     (frame_extractor_node inv s).final_video_path = s.final_video_path) ∧
    ((cursor_detector_node inv s).frames = s.frames ∧
     (cursor_detector_node inv s).audio_transcript = s.audio_transcript ∧
     (cursor_detector_node inv s).silence_segments = s.silence_segments ∧
     (cursor_detector_node inv s).frame_descriptions = s.frame_descriptions ∧
     (cursor_detector_node inv s).event_timeline = s.event_timeline ∧
     (cursor_detector_node inv s).edit_plan = s.edit_plan ∧
     (cursor_detector_node inv s).final_video_path = s.final_video_path) ∧
    ((audio_agent_node inv s).frames = s.frames ∧
     (audio_agent_node inv s).cursor_events = s.cursor_events ∧
     (audio_agent_node inv s).frame_descriptions = s.frame_descriptions ∧
     (audio_agent_node inv s).event_timeline = s.event_timeline ∧
     (audio_agent_node inv s).edit_plan = s.edit_plan ∧
     (audio_agent_node inv s).final_video_path = s.final_video_path) ∧
    ((vision_description_node inv s).frames = s.frames ∧
     (vision_description_node inv s).cursor_events = s.cursor_events ∧
     (vision_description_node inv s).audio_transcript = s.audio_transcript ∧
     (vision_description_node inv s).silence_segments = s.silence_segments ∧
     (vision_description_node inv s).event_timeline = s.event_timeline ∧
     (vision_description_node inv s).edit_plan = s.edit_plan ∧
     (vision_description_node inv s).final_video_path = s.final_video_path) ∧
    ((analysis_agent_node inv s).frames = s.frames ∧
     (analysis_agent_node inv s).cursor_events = s.cursor_events ∧
     (analysis_agent_node inv s).audio_transcript = s.audio_transcript ∧
     (analysis_agent_node inv s).silence_segments = s.silence_segments ∧
     (analysis_agent_node inv s).frame_descriptions = s.frame_descriptions ∧
     (analysis_agent_node inv s).edit_plan = s.edit_plan ∧
     (analysis_agent_node inv s).final_video_path = s.final_video_path) ∧
    ((script_planner_node inv s).frames = s.frames ∧
     (script_planner_node inv s).cursor_events = s.cursor_events ∧
     (script_planner_node inv s).audio_transcript = s.audio_transcript ∧
     (script_planner_node inv s).silence_segments = s.silence_segments ∧
     (script_planner_node inv s).frame_descriptions = s.frame_descriptions ∧
     (script_planner_node inv s).event_timeline = s.event_timeline ∧
     (script_planner_node inv s).final_video_path = s.final_video_path) ∧
    ((render_node inv s).frames = s.frames ∧
     (render_node inv s).cursor_events = s.cursor_events ∧
     (render_node inv s).audio_transcript = s.audio_transcript ∧
     (render_node inv s).silence_segments = s.silence_segments ∧
     (render_node inv s).frame_descriptions = s.frame_descriptions ∧
     (render_node inv s).event_timeline = s.event_timeline ∧
     (render_node inv s).edit_plan = s.edit_plan) ∧
    ((parallel_join_node s).frames = s.frames ∧
     (parallel_join_node s).frame_descriptions = s.frame_descriptions ∧
     (parallel_join_node s).event_timeline = s.event_timeline ∧
     (parallel_join_node s).edit_plan = s.edit_plan ∧
     (parallel_join_node s).final_video_path = s.final_video_path) :=
  ⟨rfl, rfl, ⟨rfl, rfl, rfl, rfl, rfl, rfl, rfl, rfl⟩,
    frame_extractor_node_slots inv s, cursor_detector_node_slots inv s,
    audio_agent_node_slots inv s, vision_description_node_slots inv s,
    analysis_agent_node_slots inv s, script_planner_node_slots inv s,
    render_node_slots inv s, parallel_join_node_slots s⟩

/-- A state in which the audio stage already populated its transcript slot
(with no segments) and the cursor slot is still unset. -/
def c8_state : PipelineState :=
  { initial_demo_state with
    frames := some [0],
    audio_transcript := some { segments := [], duration := 5 } }

/-- C8 counterexample: the join step — not the owning stages' merges — writes
the cursor_events, audio_transcript and silence_segments slots, and
audio_transcript is overwritten even though its owner had already populated
it. -/
theorem c8_counterexample :
    c8_state.cursor_events = none ∧
    (parallel_join_node c8_state).cursor_events = some [] ∧
    c8_state.audio_transcript = some { segments := [], duration := 5 } ∧
    (parallel_join_node c8_state).audio_transcript = some { segments := [], duration := 0 } ∧
    c8_state.silence_segments = none ∧
    (parallel_join_node c8_state).silence_segments = some [] := by
  decide

/-- Behaviours of the zero-frames scenario: frame extraction succeeds with an
empty frame list; cursor detection and audio processing succeed with
arbitrary payloads; later agents would succeed but are never reached. -/
def c9_zero_frame_behaviors (ce : Option (List Nat)) (tr : Option Transcript)
    (sil : Option (List Nat)) : AgentBehaviors where
  frame := Except.ok { status := "success", frames := some [] }
  cursor := Except.ok { status := "success", cursor_events := ce }
  audio := Except.ok { status := "success", transcript := tr, silence_segments := sil }
  vision := Except.ok { status := "success" }
  analysis := Except.ok { status := "success" }
  scriptp := Except.ok { status := "success" }
  render := Except.ok { status := "success" }

/-- C9 (amended): when frame extraction returns success with zero frames and
the parallel branches succeed, the final state has status error and an
errors entry attributing the failure to frame extraction, but
completed_stages is [frame_extractor, cursor_detector, audio_agent]: the
successful zero-frame extraction and both parallel branches are recorded,
and "intake" is never recorded because intake_node does not append to
completed_stages. -/
theorem c9_zero_frames_run (pid vp : String) (ce : Option (List Nat))
    (tr : Option Transcript) (sil : Option (List Nat)) :
    (run_pipeline (c9_zero_frame_behaviors ce tr sil)
        (create_initial_state pid vp none none)).status = "error" ∧
    "Frame extraction failed - no frames to analyze" ∈
      (run_pipeline (c9_zero_frame_behaviors ce tr sil)
        (create_initial_state pid vp none none)).errors ∧
    (run_pipeline (c9_zero_frame_behaviors ce tr sil)
        (create_initial_state pid vp none none)).completed_stages =
      ["frame_extractor", "cursor_detector", "audio_agent"] ∧
    "intake" ∉ (run_pipeline (c9_zero_frame_behaviors ce tr sil)
        (create_initial_state pid vp none none)).completed_stages := by
  simp [run_pipeline, pipeline_parallel_section, pipeline_after_join,
    c9_zero_frame_behaviors, intake_node, parallel_fork_node,
    frame_extractor_node, cursor_detector_node, audio_agent_node,
    parallel_join_node, update_state_with_agent_result, has_frames_data,
    has_cursor_data, has_audio_data, should_continue_after_parallel, truthy,
    output_node, create_initial_state]

/-- The zero-frames scenario at concrete payloads. -/
def c9_behaviors : AgentBehaviors :=
  c9_zero_frame_behaviors (some [1]) (some { segments := [1], duration := 2 }) (some [])

/-- C9 counterexample: in the zero-frames run the final completed_stages is
not [intake] — intake is never appended and the three successful stage merges
are — refuting the claim's completed_stages clause (status and error
attribution do hold). -/
theorem c9_counterexample :
    (run_pipeline c9_behaviors initial_demo_state).status = "error" ∧
    (run_pipeline c9_behaviors initial_demo_state).completed_stages =
      ["frame_extractor", "cursor_detector", "audio_agent"] ∧
    (run_pipeline c9_behaviors initial_demo_state).completed_stages ≠ ["intake"] := by
  decide

/-- The post-join scheduler section routes straight to finalize once status
is error, leaving the state untouched. -/
theorem pipeline_after_join_error (b : AgentBehaviors) (s : PipelineState)
    (h : s.status = "error") : pipeline_after_join b s = s := by
  have hr := should_continue_after_parallel_error s h
  simp [pipeline_after_join, hr, output_node]

/-- Running the parallel section on a state with an empty frames slot always
ends in an error status at the join; only the two branch stages can have been
added to completed_stages, and the post-join slots stay untouched. -/
theorem parallel_section_no_frames (b : AgentBehaviors) (s : PipelineState)
    (hfr : s.frames = none) :
    (pipeline_parallel_section b s).status = "error" ∧
    (∀ x, x ∈ (pipeline_parallel_section b s).completed_stages →
      x ∈ s.completed_stages ∨ x = "cursor_detector" ∨ x = "audio_agent") ∧
    (pipeline_parallel_section b s).frame_descriptions = s.frame_descriptions ∧
    (pipeline_parallel_section b s).event_timeline = s.event_timeline ∧
    (pipeline_parallel_section b s).edit_plan = s.edit_plan ∧
    (pipeline_parallel_section b s).final_video_path = s.final_video_path := by
  have hfork : (parallel_fork_node s).frames = s.frames := rfl
  have hcur := cursor_detector_node_slots b.cursor (parallel_fork_node s)
  have haud := audio_agent_node_slots b.audio
    (cursor_detector_node b.cursor (parallel_fork_node s))
  have ht3 : (audio_agent_node b.audio
      (cursor_detector_node b.cursor (parallel_fork_node s))).frames = none := by
    rw [haud.1, hcur.1, hfork, hfr]
  have hjoin := parallel_join_node_no_frames _ (has_frames_data_none _ ht3)
  refine ⟨?_, ?_, ?_, ?_, ?_, ?_⟩
  · simp only [pipeline_parallel_section]
    rw [hjoin]
  · simp only [pipeline_parallel_section]
    rw [hjoin]
    show ∀ x, x ∈ (audio_agent_node b.audio
      (cursor_detector_node b.cursor (parallel_fork_node s))).completed_stages → _
    rcases audio_agent_node_completed b.audio
        (cursor_detector_node b.cursor (parallel_fork_node s)) with ha | ha <;>
      rcases cursor_detector_node_completed b.cursor (parallel_fork_node s) with hc | hc <;>
        rw [ha, hc] <;>
        · intro x hx
          simp only [show (parallel_fork_node s).completed_stages = s.completed_stages from rfl,
            List.mem_append, List.mem_singleton] at hx
          tauto
  · simp only [pipeline_parallel_section]
    rw [hjoin]
    exact (haud.2.2.1).trans ((hcur.2.2.2.1).trans rfl)
  · simp only [pipeline_parallel_section]
    rw [hjoin]
    exact (haud.2.2.2.1).trans ((hcur.2.2.2.2.1).trans rfl)
  · simp only [pipeline_parallel_section]
    rw [hjoin]
    exact (haud.2.2.2.2.1).trans ((hcur.2.2.2.2.2.1).trans rfl)
  · simp only [pipeline_parallel_section]
    rw [hjoin]
    exact (haud.2.2.2.2.2).trans ((hcur.2.2.2.2.2.2).trans rfl)

/-- Frame extraction failed: either the agent call raised or it returned a
StageResult with status failed. -/
def frame_failed (b : AgentBehaviors) : Prop :=
  (∃ e, b.frame = Except.error e) ∨ ∃ r, b.frame = Except.ok r ∧ r.status = "failed"

/-- C2 (amended): when frame extraction fails, the run still enters the
parallel region — the edge frame_extractor → parallel_fork is unconditional,
so cursor detection and audio processing are invoked and may appear in
completed_stages — but the first conditional edge (after the join) routes
straight to finalize: the terminal status is error and no stage after the
join (vision description, analysis, script planning, render) is executed or
recorded, their slots remaining unset. -/
theorem c2_frame_failure_short_circuits_at_join (b : AgentBehaviors)
    (pid vp : String) (cfg prefs : Option Meta) (h : frame_failed b) :
    (run_pipeline b (create_initial_state pid vp cfg prefs)).status = "error" ∧
    "vision_description" ∉ (run_pipeline b (create_initial_state pid vp cfg prefs)).completed_stages ∧
    "analysis_agent" ∉ (run_pipeline b (create_initial_state pid vp cfg prefs)).completed_stages ∧
    "script_planner" ∉ (run_pipeline b (create_initial_state pid vp cfg prefs)).completed_stages ∧
    "render" ∉ (run_pipeline b (create_initial_state pid vp cfg prefs)).completed_stages ∧
    (run_pipeline b (create_initial_state pid vp cfg prefs)).frame_descriptions = none ∧
    (run_pipeline b (create_initial_state pid vp cfg prefs)).event_timeline = none ∧
    (run_pipeline b (create_initial_state pid vp cfg prefs)).edit_plan = none ∧
    (run_pipeline b (create_initial_state pid vp cfg prefs)).final_video_path = none := by
  obtain ⟨msg, hframe⟩ := frame_extractor_node_failed b.frame
    (intake_node (create_initial_state pid vp cfg prefs)) h
  have h2fr : (frame_extractor_node b.frame
      (intake_node (create_initial_state pid vp cfg prefs))).frames = none := by
    rw [hframe]; rfl
  have h2comp : (frame_extractor_node b.frame
      (intake_node (create_initial_state pid vp cfg prefs))).completed_stages = [] := by
    rw [hframe]; rfl
  have h2fd : (frame_extractor_node b.frame
      (intake_node (create_initial_state pid vp cfg prefs))).frame_descriptions = none := by
    rw [hframe]; rfl
  have h2et : (frame_extractor_node b.frame
      (intake_node (create_initial_state pid vp cfg prefs))).event_timeline = none := by
    rw [hframe]; rfl
  have h2ep : (frame_extractor_node b.frame
      (intake_node (create_initial_state pid vp cfg prefs))).edit_plan = none := by
    rw [hframe]; rfl
  have h2fv : (frame_extractor_node b.frame
      (intake_node (create_initial_state pid vp cfg prefs))).final_video_path = none := by
    rw [hframe]; rfl
  have hsec := parallel_section_no_frames b _ h2fr
  have hrun : run_pipeline b (create_initial_state pid vp cfg prefs) =
      pipeline_parallel_section b (frame_extractor_node b.frame
        (intake_node (create_initial_state pid vp cfg prefs))) := by
    unfold run_pipeline
    exact pipeline_after_join_error b _ hsec.1
  refine ⟨?_, ?_, ?_, ?_, ?_, ?_, ?_, ?_, ?_⟩
  · rw [hrun]; exact hsec.1
  · rw [hrun]
    intro hmem
    rcases hsec.2.1 _ hmem with hh | hh | hh
    · rw [h2comp] at hh; simp at hh
    · exact absurd hh (by decide)
    · exact absurd hh (by decide)
  · rw [hrun]
    intro hmem
    rcases hsec.2.1 _ hmem with hh | hh | hh
    · rw [h2comp] at hh; simp at hh
    · exact absurd hh (by decide)
    · exact absurd hh (by decide)
  · rw [hrun]
    intro hmem
    rcases hsec.2.1 _ hmem with hh | hh | hh
    · rw [h2comp] at hh; simp at hh
    · exact absurd hh (by decide)
    · exact absurd hh (by decide)
  · rw [hrun]
    intro hmem
    rcases hsec.2.1 _ hmem with hh | hh | hh
    · rw [h2comp] at hh; simp at hh
    · exact absurd hh (by decide)
    · exact absurd hh (by decide)
  · rw [hrun]; exact (hsec.2.2.1).trans h2fd
  · rw [hrun]; exact (hsec.2.2.2.1).trans h2et
  · rw [hrun]; exact (hsec.2.2.2.2.1).trans h2ep
  · rw [hrun]; exact (hsec.2.2.2.2.2).trans h2fv

/-- Behaviours of a run in which frame extraction returns a failed
StageResult while both parallel branches succeed. -/
def c2_behaviors : AgentBehaviors where
  frame := Except.ok { status := "failed", error := some "ffmpeg exploded" }
  cursor := Except.ok { status := "success", cursor_events := some [1] }
  audio := Except.ok { status := "success", transcript := some { segments := [1], duration := 4 } }
  vision := Except.ok { status := "success", descriptions := some [1] }
  analysis := Except.ok { status := "success", event_timeline := some [1] }
  scriptp := Except.ok { status := "success", edit_plan := some [("cuts", "x")] }
  render := Except.ok { status := "success", video_path := some "out.mp4" }

/-- C2 counterexample: after frame extraction fails (status becomes error),
cursor detection and audio processing still execute and are appended to
completed_stages — the scheduler does not route directly to finalize after
frame extraction, because that edge is unconditional. -/
theorem c2_counterexample :
    (run_pipeline c2_behaviors initial_demo_state).status = "error" ∧
    "cursor_detector" ∈ (run_pipeline c2_behaviors initial_demo_state).completed_stages ∧
    "audio_agent" ∈ (run_pipeline c2_behaviors initial_demo_state).completed_stages := by
  decide

/-- Witness for C2 at concrete behaviours, with the frame-failure hypothesis
discharged. -/
theorem c2_witness :
    (run_pipeline c2_behaviors (create_initial_state "proj-1" "video.mp4" none none)).status = "error" ∧
    "vision_description" ∉ (run_pipeline c2_behaviors (create_initial_state "proj-1" "video.mp4" none none)).completed_stages ∧
    "analysis_agent" ∉ (run_pipeline c2_behaviors (create_initial_state "proj-1" "video.mp4" none none)).completed_stages ∧
    "script_planner" ∉ (run_pipeline c2_behaviors (create_initial_state "proj-1" "video.mp4" none none)).completed_stages ∧
    "render" ∉ (run_pipeline c2_behaviors (create_initial_state "proj-1" "video.mp4" none none)).completed_stages ∧
    (run_pipeline c2_behaviors (create_initial_state "proj-1" "video.mp4" none none)).frame_descriptions = none ∧
    (run_pipeline c2_behaviors (create_initial_state "proj-1" "video.mp4" none none)).event_timeline = none ∧
    (run_pipeline c2_behaviors (create_initial_state "proj-1" "video.mp4" none none)).edit_plan = none ∧
    (run_pipeline c2_behaviors (create_initial_state "proj-1" "video.mp4" none none)).final_video_path = none :=
  c2_frame_failure_short_circuits_at_join c2_behaviors "proj-1" "video.mp4" none none
    (Or.inr ⟨{ status := "failed", error := some "ffmpeg exploded" }, rfl, rfl⟩)

/-- Behaviours of a run in which every agent succeeds; the script planner
returns the given (possibly empty) edit plan. -/
def c3_happy_behaviors (fr cev ds tl : List Nat) (tr : Transcript)
    (plan : Option Meta) : AgentBehaviors where
  frame := Except.ok { status := "success", frames := some fr }
  cursor := Except.ok { status := "success", cursor_events := some cev }
  audio := Except.ok { status := "success", transcript := some tr, silence_segments := some [] }
  vision := Except.ok { status := "success", descriptions := some ds }
  analysis := Except.ok { status := "success", event_timeline := some tl }
  scriptp := Except.ok { status := "success", narration_script := some [("style", "pro")], edit_plan := plan }
  render := Except.ok { status := "success", video_path := some "final.mp4" }

/-- C3 (amended): when script planning succeeds but the edit-plan slot is
empty (and all earlier stages succeeded with non-empty outputs), the active
should_render router skips render and routes to finalize, render never
appears in completed_stages, the final video slot stays unset and no entry
is added to errors — but the terminal status remains "processing" (the code
only sets "complete" inside the render merge) and no entry is added to
warnings (the active, non-mutating should_render does not write the skip
warning; only the shadowed earlier variant did). -/
theorem c3_empty_edit_plan_soft_stop (pid vp : String) (fr cev ds tl : List Nat)
    (tr : Transcript) (plan : Option Meta)
    (hfr : fr ≠ []) (hcev : cev ≠ []) (htr : tr.segments ≠ []) (hds : ds ≠ [])
    (hplan : truthy plan = false) :
    (run_pipeline (c3_happy_behaviors fr cev ds tl tr plan)
        (create_initial_state pid vp none none)).status = "processing" ∧
    "render" ∉ (run_pipeline (c3_happy_behaviors fr cev ds tl tr plan)
        (create_initial_state pid vp none none)).completed_stages ∧
    (run_pipeline (c3_happy_behaviors fr cev ds tl tr plan)
        (create_initial_state pid vp none none)).final_video_path = none ∧
    (run_pipeline (c3_happy_behaviors fr cev ds tl tr plan)
        (create_initial_state pid vp none none)).errors = [] ∧
    (run_pipeline (c3_happy_behaviors fr cev ds tl tr plan)
        (create_initial_state pid vp none none)).warnings = [] ∧
    (run_pipeline (c3_happy_behaviors fr cev ds tl tr plan)
        (create_initial_state pid vp none none)).completed_stages =
      ["frame_extractor", "cursor_detector", "audio_agent",
       "vision_description", "analysis_agent", "script_planner"] := by
  have hfr2 : fr.isEmpty = false := by simp [hfr]
  have hcev2 : cev.isEmpty = false := by simp [hcev]
  have htr2 : tr.segments.isEmpty = false := by simp [htr]
  have hds2 : ds.isEmpty = false := by simp [hds]
  have hfr3 : decide (0 < fr.length) = true := decide_eq_true (List.length_pos.mpr hfr)
  have hcev3 : decide (0 < cev.length) = true := decide_eq_true (List.length_pos.mpr hcev)
  cases plan with
  | none =>
      simp [run_pipeline, pipeline_parallel_section, pipeline_after_join,
        c3_happy_behaviors, intake_node, parallel_fork_node, frame_extractor_node,
        cursor_detector_node, audio_agent_node, parallel_join_node,
        vision_description_node, analysis_agent_node, script_planner_node,
        output_node, update_state_with_agent_result, has_frames_data,
        has_cursor_data, has_audio_data, should_continue_after_parallel,
        should_continue_after_vision, should_render, truthy, create_initial_state,
        hfr2, hcev2, htr2, hds2, hfr3, hcev3]
  | some l =>
      have hl : l.isEmpty = true := by simpa [truthy] using hplan
      simp [run_pipeline, pipeline_parallel_section, pipeline_after_join,
        c3_happy_behaviors, intake_node, parallel_fork_node, frame_extractor_node,
        cursor_detector_node, audio_agent_node, parallel_join_node,
        vision_description_node, analysis_agent_node, script_planner_node,
        output_node, update_state_with_agent_result, has_frames_data,
        has_cursor_data, has_audio_data, should_continue_after_parallel,
        should_continue_after_vision, should_render, truthy, create_initial_state,
        hfr2, hcev2, htr2, hds2, hfr3, hcev3, hl]

/-- The empty-edit-plan run at concrete payloads. -/
def c3_behaviors : AgentBehaviors :=
  c3_happy_behaviors [0] [0] [0] [0] { segments := [0], duration := 1 } none

/-- C3 counterexample: in the run where script planning succeeds with an
empty edit plan, the terminal status is "processing" — not "complete" — and
warnings stays empty: no entry is added by the skip decision, refuting the
claim's status and warning clauses. -/
theorem c3_counterexample :
    (run_pipeline c3_behaviors initial_demo_state).status = "processing" ∧
    (run_pipeline c3_behaviors initial_demo_state).status ≠ "complete" ∧
    (run_pipeline c3_behaviors initial_demo_state).warnings = [] ∧
    "render" ∉ (run_pipeline c3_behaviors initial_demo_state).completed_stages := by
  decide

/-- Witness for C3 at concrete payloads, with all hypotheses discharged. -/
theorem c3_witness :
    (run_pipeline (c3_happy_behaviors [0] [0] [0] [0] { segments := [0], duration := 1 } none)
        (create_initial_state "proj-1" "video.mp4" none none)).status = "processing" ∧
    "render" ∉ (run_pipeline (c3_happy_behaviors [0] [0] [0] [0] { segments := [0], duration := 1 } none)
        (create_initial_state "proj-1" "video.mp4" none none)).completed_stages ∧
    (run_pipeline (c3_happy_behaviors [0] [0] [0] [0] { segments := [0], duration := 1 } none)
        (create_initial_state "proj-1" "video.mp4" none none)).final_video_path = none ∧
    (run_pipeline (c3_happy_behaviors [0] [0] [0] [0] { segments := [0], duration := 1 } none)
        (create_initial_state "proj-1" "video.mp4" none none)).errors = [] ∧
    (run_pipeline (c3_happy_behaviors [0] [0] [0] [0] { segments := [0], duration := 1 } none)
        (create_initial_state "proj-1" "video.mp4" none none)).warnings = [] ∧
    (run_pipeline (c3_happy_behaviors [0] [0] [0] [0] { segments := [0], duration := 1 } none)
        (create_initial_state "proj-1" "video.mp4" none none)).completed_stages =
      ["frame_extractor", "cursor_detector", "audio_agent",
       "vision_description", "analysis_agent", "script_planner"] :=
  c3_empty_edit_plan_soft_stop "proj-1" "video.mp4" [0] [0] [0] [0]
    { segments := [0], duration := 1 } none
    (by decide) (by decide) (by decide) (by decide) (by decide)
